import Mathlib

/-!
Verification development for the wbor-postgres message-to-row pipeline.

The Python source (app.py, database.py, handlers.py, config.py) is shallowly
embedded below: JSON values become an inductive type, `dict.get` becomes an
association-list lookup, Python truthiness is a Boolean function, loops that
append to parallel column/value lists become list comprehensions over the same
index list, and the per-delivery callback becomes a pure function from the
delivery's decode / connect / insert outcomes to the list of broker and
database actions it performs plus the exception (if any) escaping it.
-/

namespace Wbor

/-- A JSON value as produced by json.loads: null, booleans, numbers
(restricted to integers, which is all the claims need), strings, arrays and
objects (ordered field lists). -/
inductive Json where
  | null
  | bool (b : Bool)
  | num (n : Int)
  | str (s : String)
  | arr (xs : List Json)
  | obj (fields : List (String × Json))

/-- A decoded JSON object: the field list of a Python dict. -/
abbrev Obj := List (String × Json)

/-- Python truthiness of a JSON value: None, False, 0, "", [] and \x7b\x7d are
falsy, everything else truthy. -/
def Json.truthy : Json → Bool
  | Json.null => false
  | Json.bool b => b
  | Json.num n => n != 0
  | Json.str s => !(s == "")
  | Json.arr xs => !xs.isEmpty
  | Json.obj fs => !fs.isEmpty

/-- Python dict.get(k): None when the key is absent. -/
def objGet (m : Obj) (k : String) : Option Json :=
  (m.find? (fun p => p.1 == k)).map (fun p => p.2)

/-- Python dict.get(k, default). -/
def objGetD (m : Obj) (k : String) (d : Json) : Json :=
  (objGet m k).getD d

/-- Truthiness of a dict.get result: if message.get(k) evaluates this. -/
def optTruthy : Option Json → Bool
  | none => false
  | some j => j.truthy

/-- The f-string pattern used for dynamic column names in app.py and
handlers.py: surround an identifier with double quotes. -/
def quoteIdent (s : String) : String := "\"" ++ s ++ "\""

/-- Python str.join: pyJoin sep [a, b, c] = a ++ sep ++ b ++ sep ++ c. -/
def pyJoin (sep : String) : List String → String
  | [] => ""
  | [x] => x
  | x :: y :: xs => x ++ sep ++ pyJoin sep (y :: xs)

/-- Count occurrences of a character in a string. -/
def countChar (c : Char) (s : String) : Nat := s.data.count c

/-- Python percent-formatting restricted to %s substitution, as performed by
execute_query on the logged (not executed) query text. -/
def pyFormatAux : List Char → List String → List Char
  | [], _ => []
  | '%' :: 's' :: rest, v :: vs => v.data ++ pyFormatAux rest vs
  | c :: rest, vs => c :: pyFormatAux rest vs

/-- query % tuple(values) with string renderings of the values. -/
def pyFormat (q : String) (vs : List String) : String :=
  String.mk (pyFormatAux q.data vs)

/-- database.py build_insert_query: returns the parameterized SQL text (with
one %s placeholder per value, joined by a comma-space like the Python
', '.join) and the untouched value list. The whitespace mirrors the Python
triple-quoted f-string. -/
def build_insert_query {α : Type} (table_name : String) (columns : List String)
    (values : List α) : String × List α :=
  ("\n        INSERT INTO " ++ table_name ++ " (" ++ pyJoin ", " columns
      ++ ")\n        VALUES (" ++ pyJoin ", " (List.replicate values.length "%s")
      ++ ")\n    ",
   values)

/-- What one call to database.py execute_query does: the interpolated text is
computed only for the debug log; cursor.execute receives the original query
and the original values; a DatabaseError is logged and re-raised. -/
structure Executed (α : Type) where
  loggedQuery : String
  executedQuery : String
  executedValues : List α
  raised : Bool

/-- database.py execute_query: resolved_query = query % tuple(values) is
logged, cursor.execute(query, values) is called with the untouched pair, and
dbFails records whether the cursor raised psycopg DatabaseError (which
execute_query re-raises). -/
def execute_query {α : Type} (query : String) (values : List α)
    (render : α → String) (dbFails : Bool) : Executed α :=
  { loggedQuery := pyFormat query (values.map render)
    executedQuery := query
    executedValues := values
    raised := dbFails }

/-- State of the psycopg connection object threaded through
database.py get_db_connection. -/
inductive ConnStatus where
  | noConn
  | openConn
  | closedConn
deriving DecidableEq

/-- The finally block of get_db_connection: if connection and not
connection.closed: connection.close(). -/
def finallyClose : ConnStatus → ConnStatus
  | ConnStatus.openConn => ConnStatus.closedConn
  | s => s

/-- Observable outcome of one use of the get_db_connection context manager. -/
structure GdcResult where
  yielded : Bool
  finalConn : ConnStatus
  raised : Bool
deriving DecidableEq

/-- database.py get_db_connection: psycopg.connect either succeeds (connects)
or raises; on success the connection is yielded to the body, which may raise
and may itself close the connection; the except block re-raises, and the
finally block closes a still-open connection. -/
def get_db_connection (connects bodyRaises bodyCloses : Bool) : GdcResult :=
  if connects then
    let afterBody := if bodyCloses then ConnStatus.closedConn else ConnStatus.openConn
    { yielded := true, finalConn := finallyClose afterBody, raised := bodyRaises }
  else
    { yielded := false, finalConn := finallyClose ConnStatus.noConn, raised := true }

/-- config default for the primary queue name: POSTGRES_QUEUE. -/
def POSTGRES_QUEUE : String := "postgres"

/-- Location field keys scanned by the app.py callback loop. -/
def appLocTypes : List String := ["FromCity", "FromState", "FromCountry", "FromZip"]

/-- Location field keys scanned by handlers.py handle_twilio_sms. -/
def handlersLocTypes : List String := ["from_city", "from_state", "from_country", "from_zip"]

/-- The loop `for loc_type in locTypes: if message.get(loc_type): append
(quoted column, value)`, which grows location_columns and location_values in
lock-step: rendered as the list of appended (column, value) pairs. -/
def locPairs (m : Obj) (locTypes : List String) : List (String × Option Json) :=
  (locTypes.filter (fun lt => optTruthy (objGet m lt))).map
    (fun lt => (quoteIdent lt, objGet m lt))

/-- Message key MediaContentType\x7bi\x7d (a Twilio request-body key, the same
in app.py and handlers.py). -/
def mediaTypeKey (i : Nat) : String := "MediaContentType" ++ toString i

/-- Message key MediaUrl\x7bi\x7d. -/
def mediaUrlKey (i : Nat) : String := "MediaUrl" ++ toString i

/-- The body of the `for i in range(10)` media loop: for each index, append a
(column, value) pair for the content type when present, then one for the URL
when present, then continue with the remaining indices. colT and colU give the
column names used (quoted in app.py, snake_case in handlers.py). -/
def mediaPairsFrom (m : Obj) (colT colU : Nat → String) : List Nat → List (String × Option Json)
  | [] => []
  | i :: rest =>
      (if optTruthy (objGet m (mediaTypeKey i)) then [(colT i, objGet m (mediaTypeKey i))] else [])
        ++ ((if optTruthy (objGet m (mediaUrlKey i)) then [(colU i, objGet m (mediaUrlKey i))] else [])
        ++ mediaPairsFrom m colT colU rest)

/-- app.py media loop: columns are the quoted keys, indices range(10). -/
def app_media_pairs (m : Obj) : List (String × Option Json) :=
  mediaPairsFrom m (fun i => quoteIdent (mediaTypeKey i)) (fun i => quoteIdent (mediaUrlKey i))
    (List.range 10)

def app_location_columns (m : Obj) : List String := (locPairs m appLocTypes).map (fun p => p.1)

def app_location_values (m : Obj) : List (Option Json) := (locPairs m appLocTypes).map (fun p => p.2)

def app_media_columns (m : Obj) : List String := (app_media_pairs m).map (fun p => p.1)

def app_media_values (m : Obj) : List (Option Json) := (app_media_pairs m).map (fun p => p.2)

/-- app.py callback: the nine static quoted columns. -/
def appStaticColumns : List String :=
  [quoteIdent "MessageSid", quoteIdent "AccountSid", quoteIdent "MessagingServiceSid",
   quoteIdent "From", quoteIdent "To", quoteIdent "Body",
   quoteIdent "NumSegments", quoteIdent "NumMedia", quoteIdent "ApiVersion"]

/-- app.py callback: the nine static values, each message.get(...). -/
def appStaticValues (m : Obj) : List (Option Json) :=
  [objGet m "MessageSid", objGet m "AccountSid", objGet m "MessagingServiceSid",
   objGet m "From", objGet m "To", objGet m "Body",
   objGet m "NumSegments", objGet m "NumMedia", objGet m "ApiVersion"]

/-- app.py callback: columns = static + location_columns + media_columns. -/
def app_columns (m : Obj) : List String :=
  appStaticColumns ++ app_location_columns m ++ app_media_columns m

/-- app.py callback: values = static + location_values + media_values. -/
def app_values (m : Obj) : List (Option Json) :=
  appStaticValues m ++ app_location_values m ++ app_media_values m

/-- The dynamic INSERT built inside the app.py callback (whitespace of the
Python triple-quoted f-string), with one %s placeholder per value. -/
def appInsertQuery (table : String) (columns : List String) (nvals : Nat) : String :=
  "\n                        INSERT INTO " ++ table ++ " (" ++ pyJoin ", " columns
    ++ ")\n                        VALUES (" ++ pyJoin ", " (List.replicate nvals "%s")
    ++ ")\n                    "

/-- Exceptions relevant to the callback: AttributeError (message.get on a
non-dict) and ValueError (the arity check), neither caught by
`except (json.JSONDecodeError, KeyError)`. -/
inductive PyErr where
  | attributeError
  | valueError
deriving DecidableEq

/-- Outcome of cursor.execute on the insert. -/
inductive InsertOutcome where
  | ok
  | dbError
deriving DecidableEq

/-- Broker/database actions observable from the consumer threads. -/
inductive Action where
  | connectAttempt
  | execute (q : String) (vals : List (Option Json))
  | commit
  | ack (tag : Nat)
  | nackRequeue (tag : Nat)
  | closeConn
  | sleep (secs : Nat)
  | publish (exchange routingKey : String) (body : List Nat)
  | exchangeDeclare (name kind : String)
  | queueDeclare (name : String) (durable : Bool)
  | queueBind (exchange queue : String)
  | queueDeclareWithDLX (name : String) (ttlMs : Nat) (dlx : String)
  | basicConsume (queue : String) (autoAck : Bool)
  | startConsuming

def isAckAct : Action → Bool
  | Action.ack _ => true
  | _ => false

def isNackAct : Action → Bool
  | Action.nackRequeue _ => true
  | _ => false

def isExecuteAct : Action → Bool
  | Action.execute _ _ => true
  | _ => false

def isCommitAct : Action → Bool
  | Action.commit => true
  | _ => false

def isConnectAct : Action → Bool
  | Action.connectAttempt => true
  | _ => false

def isSleep5 : Action → Bool
  | Action.sleep 5 => true
  | _ => false

/-- app.py connect_to_postgres: psycopg.connect either yields a connection or
raises psycopg.Error, which is caught and turned into None. -/
def connect_to_postgres (connects : Bool) : Option Unit :=
  if connects then some () else none

/-- Lines 90-162 of app.py callback (the inner try body plus its
`except psycopg.errors.DatabaseError` clause): the arity check raises
ValueError before the query runs when the lists disagree; otherwise
cursor.execute runs, and on success conn.commit() is followed by
ch.basic_ack; a DatabaseError from the cursor is caught and only logged, so
neither ack nor requeue is issued. -/
def insertSection (table : String) (tag : Nat) (columns : List String)
    (values : List (Option Json)) (res : InsertOutcome) : List Action × Option PyErr :=
  if columns.length != values.length then
    ([], some PyErr.valueError)
  else
    match res with
    | InsertOutcome.ok =>
        ([Action.execute (appInsertQuery table columns values.length) values,
          Action.commit, Action.ack tag], none)
    | InsertOutcome.dbError =>
        ([Action.execute (appInsertQuery table columns values.length) values], none)

/-- app.py callback, as a function of the delivery's decode outcome (none
models a json.JSONDecodeError from json.loads), the connect outcome, and the
insert outcome. Returns the action trace and the exception escaping the
callback, if any: a decode failure is caught and only logged; a body decoding
to a non-object raises AttributeError at message.get, which no except clause
catches; with a connection, the insert section runs under the
`finally: conn.close()`. -/
def callback (table : String) (tag : Nat) (decoded : Option Json) (connectOk : Bool)
    (res : InsertOutcome) : List Action × Option PyErr :=
  match decoded with
  | none => ([], none)
  | some (Json.obj fields) =>
      match connect_to_postgres connectOk with
      | some _ =>
          let inner := insertSection table tag (app_columns fields) (app_values fields) res
          (Action.connectAttempt :: (inner.1 ++ [Action.closeConn]), inner.2)
      | none => ([Action.connectAttempt], none)
  | some _ => ([], some PyErr.attributeError)

/-- app.py retry_callback (the dead-letter pump): republish the untouched
body to the primary queue via the default exchange ("") with routing key
POSTGRES_QUEUE, then acknowledge the dead-letter delivery. Unconditional:
the body is never inspected. -/
def retry_callback (tag : Nat) (body : List Nat) : List Action :=
  [Action.publish "" POSTGRES_QUEUE body, Action.ack tag]

/-- Outcome of one iteration of the consume_messages connection loop:
pika.BlockingConnection either raises AMQPConnectionError or connects. -/
inductive AttemptResult where
  | connFail
  | connected
deriving DecidableEq

/-- The actions of a successful consume_messages iteration: declare the
dead-letter exchange and queue, bind them, declare the primary queue with a
60000 ms TTL and the dead-letter exchange, subscribe with auto_ack=False,
and block in start_consuming. -/
def consumeSuccessActions : List Action :=
  [Action.exchangeDeclare "dead_letter_exchange" "direct",
   Action.queueDeclare "dead_letter_queue" true,
   Action.queueBind "dead_letter_exchange" "dead_letter_queue",
   Action.queueDeclareWithDLX POSTGRES_QUEUE 60000 "dead_letter_exchange",
   Action.basicConsume POSTGRES_QUEUE false,
   Action.startConsuming]

/-- app.py consume_messages: `while True:` attempt a connection; an
AMQPConnectionError is caught at the loop boundary, logged, and followed by
time.sleep(5) before the next attempt; a successful attempt declares the
topology and blocks consuming. The argument list is the outcome of each
successive attempt. -/
def consume_messages : List AttemptResult → List Action
  | [] => []
  | AttemptResult.connFail :: rest => Action.sleep 5 :: consume_messages rest
  | AttemptResult.connected :: _ => consumeSuccessActions

/-- A value as appended to a handler's value list in handlers.py: either a raw
message.get result, a timestamp coerced with datetime.fromtimestamp, a
timestamp coerced with datetime.fromisoformat after replacing "Z", or a
json.dumps rendering of a list. The coercion constructors record that the
source applies the conversion without modelling datetime itself. -/
inductive PyVal where
  | raw (v : Option Json)
  | fromTimestamp (v : Option Json)
  | isoTimestamp (v : Option Json)
  | jsonDumps (v : Json)

/-- handlers.py handle_twilio_sms media column media_content_type_\x7bi\x7d. -/
def twilioMediaTypeCol (i : Nat) : String := "media_content_type_" ++ toString i

/-- handlers.py handle_twilio_sms media column media_url_\x7bi\x7d. -/
def twilioMediaUrlCol (i : Nat) : String := "media_url_" ++ toString i

/-- handlers.py handle_twilio_sms media loop over range(10). -/
def twilio_media_pairs (m : Obj) : List (String × Option Json) :=
  mediaPairsFrom m twilioMediaTypeCol twilioMediaUrlCol (List.range 10)

def twilio_location_columns (m : Obj) : List String :=
  (locPairs m handlersLocTypes).map (fun p => p.1)

def twilio_location_values (m : Obj) : List (Option Json) :=
  (locPairs m handlersLocTypes).map (fun p => p.2)

def twilio_media_columns (m : Obj) : List String := (twilio_media_pairs m).map (fun p => p.1)

def twilio_media_values (m : Obj) : List (Option Json) := (twilio_media_pairs m).map (fun p => p.2)

/-- handlers.py handle_twilio_sms: the eleven static columns. -/
def twilioStaticColumns : List String :=
  ["message_sid", "account_sid", "messagingservice_sid", "from_num", "to_num",
   "body", "num_segments", "num_media", "api_version", "sender_name", "wbor_message_id"]

/-- handlers.py handle_twilio_sms: the eleven static values. -/
def twilioStaticValues (m : Obj) : List (Option Json) :=
  [objGet m "MessageSid", objGet m "AccountSid", objGet m "MessagingServiceSid",
   objGet m "From", objGet m "To", objGet m "Body", objGet m "NumSegments",
   objGet m "NumMedia", objGet m "ApiVersion", objGet m "SenderName",
   objGet m "wbor_message_id"]

def handle_twilio_sms_columns (m : Obj) : List String :=
  twilioStaticColumns ++ twilio_location_columns m ++ twilio_media_columns m

def handle_twilio_sms_values (m : Obj) : List (Option Json) :=
  twilioStaticValues m ++ twilio_location_values m ++ twilio_media_values m

/-- handlers.py handle_outgoing_twilio_sms columns. -/
def handle_outgoing_columns : List String :=
  [quoteIdent "wbor_message_id", quoteIdent "recipient_number", quoteIdent "body",
   quoteIdent "timestamp"]

/-- handlers.py handle_outgoing_twilio_sms values (timestamp is parsed from
the ISO string with "Z" replaced by "+00:00"). -/
def handle_outgoing_values (m : Obj) : List PyVal :=
  [PyVal.raw (objGet m "wbor_message_id"), PyVal.raw (objGet m "recipient_number"),
   PyVal.raw (objGet m "body"), PyVal.isoTimestamp (objGet m "timestamp")]

/-- handlers.py handle_message_event (groupme.msg) columns. -/
def handle_message_event_columns : List String :=
  [quoteIdent "text", quoteIdent "bot_id", quoteIdent "code", quoteIdent "type",
   quoteIdent "wbor_message_id", quoteIdent "picture_url", quoteIdent "source"]

/-- handlers.py handle_message_event values. -/
def handle_message_event_values (m : Obj) : List (Option Json) :=
  [objGet m "text", objGet m "bot_id", objGet m "statuscode", objGet m "type",
   objGet m "wbor_message_id", objGet m "picture_url", objGet m "source"]

/-- handlers.py handle_image_event (groupme.img) columns. -/
def handle_image_event_columns : List String :=
  [quoteIdent "raw_img", quoteIdent "bot_id", quoteIdent "code", quoteIdent "type",
   quoteIdent "wbor_message_id", quoteIdent "picture_url", quoteIdent "text",
   quoteIdent "source"]

/-- handlers.py handle_image_event values. -/
def handle_image_event_values (m : Obj) : List (Option Json) :=
  [objGet m "raw_img", objGet m "bot_id", objGet m "statuscode", objGet m "type",
   objGet m "wbor_message_id", objGet m "picture_url", objGet m "text",
   objGet m "source"]

/-- handlers.py handle_callback_event (groupme.callback) columns. -/
def handle_callback_event_columns : List String :=
  [quoteIdent "attachments", quoteIdent "avatar_url", quoteIdent "created_at",
   quoteIdent "group_id", quoteIdent "id", quoteIdent "name", quoteIdent "sender_id",
   quoteIdent "sender_type", quoteIdent "source_guid", quoteIdent "system",
   quoteIdent "text", quoteIdent "user_id"]

/-- handlers.py handle_callback_event values: attachments is
json.dumps(message.get("attachments", [])) and created_at is
datetime.fromtimestamp(message.get("created_at")). -/
def handle_callback_event_values (m : Obj) : List PyVal :=
  [PyVal.jsonDumps (objGetD m "attachments" (Json.arr [])),
   PyVal.raw (objGet m "avatar_url"),
   PyVal.fromTimestamp (objGet m "created_at"),
   PyVal.raw (objGet m "group_id"), PyVal.raw (objGet m "id"),
   PyVal.raw (objGet m "name"), PyVal.raw (objGet m "sender_id"),
   PyVal.raw (objGet m "sender_type"), PyVal.raw (objGet m "source_guid"),
   PyVal.raw (objGet m "system"), PyVal.raw (objGet m "text"),
   PyVal.raw (objGet m "user_id")]

theorem countChar_append (c : Char) (a b : String) :
    countChar c (a ++ b) = countChar c a + countChar c b := by
  simp [countChar, String.data_append, List.count_append]

theorem pyJoin_count_zero (sep : String) (hsep : countChar '%' sep = 0) :
    ∀ l : List String, (∀ s ∈ l, countChar '%' s = 0) → countChar '%' (pyJoin sep l) = 0 := by
  intro l
  induction l with
  | nil => intro _; rfl
  | cons x xs ih =>
    intro h
    cases xs with
    | nil => simpa [pyJoin] using h x (by simp)
    | cons y ys =>
      have hx := h x (by simp)
      have hrest : ∀ s ∈ y :: ys, countChar '%' s = 0 := fun s hs => h s (by simp [hs])
      simp [pyJoin, countChar_append, hx, hsep, ih hrest]

theorem placeholders_count : ∀ n : Nat, countChar '%' (pyJoin ", " (List.replicate n "%s")) = n
  | 0 => rfl
  | 1 => rfl
  | (n + 2) => by
    have ih := placeholders_count (n + 1)
    rw [List.replicate_succ] at ih ⊢
    rw [List.replicate_succ]
    simp only [pyJoin]
    rw [countChar_append, countChar_append, ih]
    have h1 : countChar '%' "%s" = 1 := by decide
    have h2 : countChar '%' ", " = 0 := by decide
    rw [h1, h2]
    omega

theorem quoteIdent_inj (a b : String) (h : quoteIdent a = quoteIdent b) : a = b := by
  have h2 : ("\"" ++ a ++ "\"").data = ("\"" ++ b ++ "\"").data :=
    congrArg String.data h
  rw [String.data_append, String.data_append, String.data_append, String.data_append] at h2
  have h3 := (List.append_inj' h2 rfl).1
  have h4 := (List.append_inj h3 rfl).2
  obtain ⟨da⟩ := a
  obtain ⟨db⟩ := b
  exact congrArg String.mk (by simpa using h4)

theorem optTruthy_isSome (o : Option Json) (h : optTruthy o = true) : o.isSome = true := by
  cases o with
  | none => simp [optTruthy] at h
  | some j => rfl

theorem loc_col_mem {m : Obj} {lts : List String} {c : String}
    (h : c ∈ (locPairs m lts).map (fun p => p.1)) :
    ∃ lt, lt ∈ lts ∧ c = quoteIdent lt ∧ optTruthy (objGet m lt) = true := by
  rcases List.mem_map.mp h with ⟨p, hp, hc⟩
  rcases List.mem_map.mp hp with ⟨lt, hlt, hf⟩
  rcases List.mem_filter.mp hlt with ⟨hmem, hpred⟩
  refine ⟨lt, hmem, ?_, hpred⟩
  rw [← hc, ← hf]

theorem loc_val_mem {m : Obj} {lts : List String} {v : Option Json}
    (h : v ∈ (locPairs m lts).map (fun p => p.2)) :
    ∃ lt, lt ∈ lts ∧ v = objGet m lt ∧ optTruthy (objGet m lt) = true := by
  rcases List.mem_map.mp h with ⟨p, hp, hv⟩
  rcases List.mem_map.mp hp with ⟨lt, hlt, hf⟩
  rcases List.mem_filter.mp hlt with ⟨hmem, hpred⟩
  refine ⟨lt, hmem, ?_, hpred⟩
  rw [← hv, ← hf]

theorem mem_mediaPairsFrom {m : Obj} {colT colU : Nat → String} :
    ∀ (l : List Nat) (p : String × Option Json), p ∈ mediaPairsFrom m colT colU l →
    ∃ i, i ∈ l ∧
      ((p = (colT i, objGet m (mediaTypeKey i)) ∧ optTruthy (objGet m (mediaTypeKey i)) = true)
        ∨ (p = (colU i, objGet m (mediaUrlKey i)) ∧ optTruthy (objGet m (mediaUrlKey i)) = true)) := by
  intro l
  induction l with
  | nil => intro p hp; simp [mediaPairsFrom] at hp
  | cons i rest ih =>
    intro p hp
    simp only [mediaPairsFrom, List.mem_append] at hp
    rcases hp with h1 | h2 | h3
    · cases ht : optTruthy (objGet m (mediaTypeKey i)) with
      | false => rw [ht] at h1; simp at h1
      | true =>
        rw [ht] at h1; simp at h1
        exact ⟨i, by simp, Or.inl ⟨h1, ht⟩⟩
    · cases hu : optTruthy (objGet m (mediaUrlKey i)) with
      | false => rw [hu] at h2; simp at h2
      | true =>
        rw [hu] at h2; simp at h2
        exact ⟨i, by simp, Or.inr ⟨h2, hu⟩⟩
    · rcases ih p h3 with ⟨j, hj, hcase⟩
      exact ⟨j, by simp [hj], hcase⟩

/-- The arity invariant for the app.py callback projection: each static column
pairs with a static value, and both loops append a column and a value
together. -/
theorem app_arity (m : Obj) : (app_columns m).length = (app_values m).length := by
  simp [app_columns, app_values, appStaticColumns, appStaticValues,
    app_location_columns, app_location_values, app_media_columns, app_media_values]

/-- The arity invariant for handlers.py handle_twilio_sms. -/
theorem twilio_arity (m : Obj) :
    (handle_twilio_sms_columns m).length = (handle_twilio_sms_values m).length := by
  simp [handle_twilio_sms_columns, handle_twilio_sms_values, twilioStaticColumns,
    twilioStaticValues, twilio_location_columns, twilio_location_values,
    twilio_media_columns, twilio_media_values]

theorem countP_sleep_replicate : ∀ n : Nat,
    (List.replicate n (Action.sleep 5)).countP isSleep5 = n := by
  intro n
  induction n with
  | zero => rfl
  | succ k ih => rw [List.replicate_succ]; simp [List.countP_cons, ih, isSleep5]

theorem consume_messages_replicate_fail : ∀ n : Nat,
    consume_messages (List.replicate n AttemptResult.connFail)
      = List.replicate n (Action.sleep 5) := by
  intro n
  induction n with
  | zero => rfl
  | succ k ih =>
    rw [List.replicate_succ, List.replicate_succ]
    simp [consume_messages, ih]

theorem consume_messages_fail_then_connect : ∀ n : Nat,
    consume_messages (List.replicate n AttemptResult.connFail ++ [AttemptResult.connected])
      = List.replicate n (Action.sleep 5) ++ consumeSuccessActions := by
  intro n
  induction n with
  | zero => rfl
  | succ k ih =>
    rw [List.replicate_succ, List.replicate_succ]
    simp only [List.cons_append]
    simp [consume_messages, ih]

/-- Extract the published body from a publish action. -/
def publishedBody : Action → Option (List Nat)
  | Action.publish _ _ b => some b
  | _ => none

theorem loc_absent_generic {m : Obj} {lts : List String} {lt : String}
    (hnone : objGet m lt = none) :
    quoteIdent lt ∉ (locPairs m lts).map (fun p => p.1) := by
  intro hmem
  rcases loc_col_mem hmem with ⟨lt', _, heq, htr⟩
  have he := quoteIdent_inj _ _ heq
  rw [← he, hnone] at htr
  simp [optTruthy] at htr

theorem media_col_bound_generic {m : Obj} {colT colU : Nat → String} {c : String}
    (h : c ∈ (mediaPairsFrom m colT colU (List.range 10)).map (fun p => p.1)) :
    ∃ i, i < 10 ∧
      ((c = colT i ∧ (objGet m (mediaTypeKey i)).isSome = true)
        ∨ (c = colU i ∧ (objGet m (mediaUrlKey i)).isSome = true)) := by
  rcases List.mem_map.mp h with ⟨p, hp, hc⟩
  rcases mem_mediaPairsFrom (List.range 10) p hp with ⟨i, hi, hcase⟩
  refine ⟨i, List.mem_range.mp hi, ?_⟩
  rcases hcase with ⟨hpeq, ht⟩ | ⟨hpeq, ht⟩
  · exact Or.inl ⟨by rw [← hc, hpeq], optTruthy_isSome _ ht⟩
  · exact Or.inr ⟨by rw [← hc, hpeq], optTruthy_isSome _ ht⟩

theorem media_val_some_generic {m : Obj} {colT colU : Nat → String} {v : Option Json}
    (h : v ∈ (mediaPairsFrom m colT colU (List.range 10)).map (fun p => p.2)) :
    v.isSome = true := by
  rcases List.mem_map.mp h with ⟨p, hp, hv⟩
  rcases mem_mediaPairsFrom (List.range 10) p hp with ⟨i, _, hcase⟩
  rcases hcase with ⟨hpeq, ht⟩ | ⟨hpeq, ht⟩
  · rw [← hv, hpeq]; exact optTruthy_isSome _ ht
  · rw [← hv, hpeq]; exact optTruthy_isSome _ ht

/-- C1: for a delivery whose body decodes to a JSON object and whose insert
succeeds, the callback's action trace is connect, execute, commit, ack, close,
so basic_ack is issued strictly after conn.commit() returns and no ack occurs
before the commit; when the cursor raises a DatabaseError, the trace contains
no ack and no requeue and the error does not escape the callback. -/
theorem claim_C1 (table : String) (tag : Nat) (f : Obj) :
    (callback table tag (some (Json.obj f)) true InsertOutcome.ok).1 =
      [Action.connectAttempt,
       Action.execute (appInsertQuery table (app_columns f) (app_values f).length) (app_values f),
       Action.commit, Action.ack tag, Action.closeConn]
    ∧ ((callback table tag (some (Json.obj f)) true InsertOutcome.ok).1.takeWhile
        (fun a => !(isCommitAct a))).countP isAckAct = 0
    ∧ (callback table tag (some (Json.obj f)) true InsertOutcome.dbError).1.countP isAckAct = 0
    ∧ (callback table tag (some (Json.obj f)) true InsertOutcome.dbError).1.countP isNackAct = 0
    ∧ (callback table tag (some (Json.obj f)) true InsertOutcome.dbError).2 = none := by
  have h := app_arity f
  simp [callback, connect_to_postgres, insertSection, h, isCommitAct, isAckAct, isNackAct]

/-- C2 counterexample: for a delivery whose body fails JSON decoding, the
callback issues zero acknowledgments, not exactly one: the except clause in
the code only logs. -/
theorem claim_C2_counterexample :
    ¬ ((callback "messages" 7 none true InsertOutcome.ok).1.countP isAckAct = 1) := by
  decide

/-- C2 (amended): for every delivery whose body fails JSON decoding, the
callback logs and returns without touching the database and without issuing
any acknowledgment: no connection attempt, no insert, zero acks, and no
exception escapes — so redelivering the same malformed bytes always yields
this same no-op outcome. -/
theorem claim_C2 (table : String) (tag : Nat) (connectOk : Bool) (res : InsertOutcome) :
    callback table tag none connectOk res = ([], none)
    ∧ (callback table tag none connectOk res).1.countP isConnectAct = 0
    ∧ (callback table tag none connectOk res).1.countP isExecuteAct = 0
    ∧ (callback table tag none connectOk res).1.countP isAckAct = 0 :=
  ⟨rfl, rfl, rfl, rfl⟩

/-- C3: whenever the built column list and value list have different lengths,
the arity check raises ValueError before the query runs: cursor.execute is
never reached, no acknowledgment is issued, and the ValueError escapes the
insert section. -/
theorem claim_C3 (table : String) (tag : Nat) (columns : List String)
    (values : List (Option Json)) (res : InsertOutcome)
    (h : columns.length ≠ values.length) :
    (insertSection table tag columns values res).1.countP isExecuteAct = 0
    ∧ (insertSection table tag columns values res).1.countP isAckAct = 0
    ∧ (insertSection table tag columns values res).2 = some PyErr.valueError := by
  have hb : (columns.length != values.length) = true := by
    rw [bne_iff_ne]; exact h
  simp [insertSection, hb]

/-- C3 witness: a concrete mismatched projection (one column, zero values)
reaches neither the execute nor the ack and raises the ValueError. -/
theorem claim_C3_witness :
    ([quoteIdent "a"] : List String).length ≠ ([] : List (Option Json)).length
    ∧ (insertSection "messages" 3 [quoteIdent "a"] [] InsertOutcome.ok).1.countP isExecuteAct = 0
    ∧ (insertSection "messages" 3 [quoteIdent "a"] [] InsertOutcome.ok).1.countP isAckAct = 0
    ∧ (insertSection "messages" 3 [quoteIdent "a"] [] InsertOutcome.ok).2
        = some PyErr.valueError :=
  ⟨by decide,
   (claim_C3 "messages" 3 [quoteIdent "a"] [] InsertOutcome.ok (by decide)).1,
   (claim_C3 "messages" 3 [quoteIdent "a"] [] InsertOutcome.ok (by decide)).2.1,
   (claim_C3 "messages" 3 [quoteIdent "a"] [] InsertOutcome.ok (by decide)).2.2⟩

/-- C4 counterexample: a body that is valid JSON but not an object (here the
number 42) makes message.get raise AttributeError, which neither except
clause catches, so a per-message error does escape the callback. -/
theorem claim_C4_counterexample :
    (callback "messages" 3 (some (Json.num 42)) true InsertOutcome.ok).2
        = some PyErr.attributeError
    ∧ (callback "messages" 3 (some (Json.num 42)) true InsertOutcome.ok).2 ≠ none := by
  exact ⟨rfl, by decide⟩

/-- C4 (amended): for deliveries whose body fails to decode or decodes to a
JSON object, every exception raised during decode, dispatch, or insert is
caught inside the callback and nothing escapes; the exception to this is a
body decoding to a non-object JSON value, whose AttributeError escapes. -/
theorem claim_C4 (table : String) (tag : Nat) (connectOk : Bool) (res : InsertOutcome) (f : Obj) :
    (callback table tag none connectOk res).2 = none
    ∧ (callback table tag (some (Json.obj f)) connectOk res).2 = none := by
  refine ⟨rfl, ?_⟩
  have h := app_arity f
  cases connectOk with
  | false => rfl
  | true => cases res <;> simp [callback, connect_to_postgres, insertSection, h]

/-- C5: the dead-letter consumer's retry_callback republishes the untouched
body (byte-for-byte: the published body is the input body) to the primary
queue via the default exchange "" with routing key POSTGRES_QUEUE, then
acknowledges the dead-letter delivery exactly once, unconditionally for every
tag and body, with no inspection, retry counting, or backoff; the same
POSTGRES_QUEUE is the queue the primary consumer subscribes to. -/
theorem claim_C5 (tag : Nat) (body : List Nat) :
    retry_callback tag body = [Action.publish "" POSTGRES_QUEUE body, Action.ack tag]
    ∧ (retry_callback tag body).filterMap publishedBody = [body]
    ∧ (retry_callback tag body).countP isAckAct = 1
    ∧ Action.basicConsume POSTGRES_QUEUE false ∈ consumeSuccessActions := by
  refine ⟨rfl, rfl, rfl, by simp [consumeSuccessActions]⟩

/-- C6: get_db_connection never leaves the connection open on any exit path
(normal return, body exception, or acquisition failure), and a failed
acquisition yields no connection to the caller and re-raises. -/
theorem claim_C6 (connects bodyRaises bodyCloses : Bool) :
    (get_db_connection connects bodyRaises bodyCloses).finalConn ≠ ConnStatus.openConn
    ∧ (get_db_connection false bodyRaises bodyCloses).yielded = false
    ∧ (get_db_connection false bodyRaises bodyCloses).raised = true := by
  cases connects <;> cases bodyRaises <;> cases bodyCloses <;> decide

/-- C6 witness: a concrete failed acquisition leaves no open connection,
yields nothing, and re-raises. -/
theorem claim_C6_witness :
    (get_db_connection false true false).finalConn ≠ ConnStatus.openConn
    ∧ (get_db_connection false true false).yielded = false
    ∧ (get_db_connection false true false).raised = true :=
  ⟨(claim_C6 false true false).1, (claim_C6 false true false).2.1,
   (claim_C6 false true false).2.2⟩

/-- C7: build_insert_query returns the untouched value list next to a SQL
text containing exactly one %s placeholder per value (when the table name and
column names contain no percent sign), and execute_query passes exactly that
SQL text and exactly those values to cursor.execute — the interpolated
rendering exists only for the log. -/
theorem claim_C7 {α : Type} (table : String) (cols : List String) (vals : List α)
    (render : α → String) (dbFails : Bool)
    (h1 : countChar '%' table = 0)
    (h2 : ∀ c ∈ cols, countChar '%' c = 0) :
    (build_insert_query table cols vals).2 = vals
    ∧ countChar '%' (build_insert_query table cols vals).1 = vals.length
    ∧ (execute_query (build_insert_query table cols vals).1 vals render dbFails).executedQuery
        = (build_insert_query table cols vals).1
    ∧ (execute_query (build_insert_query table cols vals).1 vals render dbFails).executedValues
        = vals := by
  refine ⟨rfl, ?_, rfl, rfl⟩
  have hj : countChar '%' (pyJoin ", " cols) = 0 := pyJoin_count_zero ", " (by decide) cols h2
  have hA : countChar '%' "\n        INSERT INTO " = 0 := by decide
  have hB : countChar '%' " (" = 0 := by decide
  have hC : countChar '%' ")\n        VALUES (" = 0 := by decide
  have hD : countChar '%' ")\n    " = 0 := by decide
  simp [build_insert_query, countChar_append, h1, hj, hA, hB, hC, hD, placeholders_count]

/-- C7 witness: a concrete percent-free table and column list with two values
yields a query with exactly two placeholders and the untouched values on the
parameter channel. -/
theorem claim_C7_witness :
    countChar '%' "messages" = 0
    ∧ (∀ c ∈ [quoteIdent "MessageSid", quoteIdent "Body"], countChar '%' c = 0)
    ∧ (build_insert_query "messages" [quoteIdent "MessageSid", quoteIdent "Body"]
        ["a", "b"]).2 = ["a", "b"]
    ∧ countChar '%' (build_insert_query "messages"
        [quoteIdent "MessageSid", quoteIdent "Body"] ["a", "b"]).1
        = (["a", "b"] : List String).length
    ∧ (execute_query (build_insert_query "messages"
          [quoteIdent "MessageSid", quoteIdent "Body"] ["a", "b"]).1
        ["a", "b"] id false).executedQuery
        = (build_insert_query "messages"
            [quoteIdent "MessageSid", quoteIdent "Body"] ["a", "b"]).1
    ∧ (execute_query (build_insert_query "messages"
          [quoteIdent "MessageSid", quoteIdent "Body"] ["a", "b"]).1
        ["a", "b"] id false).executedValues = ["a", "b"] :=
  ⟨by decide, by decide,
   (claim_C7 "messages" [quoteIdent "MessageSid", quoteIdent "Body"] ["a", "b"] id false
      (by decide) (by decide)).1,
   (claim_C7 "messages" [quoteIdent "MessageSid", quoteIdent "Body"] ["a", "b"] id false
      (by decide) (by decide)).2.1,
   (claim_C7 "messages" [quoteIdent "MessageSid", quoteIdent "Body"] ["a", "b"] id false
      (by decide) (by decide)).2.2.1,
   (claim_C7 "messages" [quoteIdent "MessageSid", quoteIdent "Body"] ["a", "b"] id false
      (by decide) (by decide)).2.2.2⟩

/-- C8: optional location attributes contribute a (column, value) pair only
when present and truthy in the message — an absent key yields no column and
never a null value — and media attachment columns arise only from indices
0 through 9 with a present key, in both the app.py callback projection and
handlers.py handle_twilio_sms. -/
theorem claim_C8 (m : Obj) :
    (∀ lt ∈ appLocTypes, objGet m lt = none → quoteIdent lt ∉ app_location_columns m)
    ∧ (∀ c ∈ app_location_columns m, ∃ lt ∈ appLocTypes,
        c = quoteIdent lt ∧ (objGet m lt).isSome = true)
    ∧ (∀ c ∈ app_media_columns m, ∃ i, i < 10 ∧
        ((c = quoteIdent (mediaTypeKey i) ∧ (objGet m (mediaTypeKey i)).isSome = true)
          ∨ (c = quoteIdent (mediaUrlKey i) ∧ (objGet m (mediaUrlKey i)).isSome = true)))
    ∧ (∀ v ∈ app_location_values m, v.isSome = true)
    ∧ (∀ v ∈ app_media_values m, v.isSome = true)
    ∧ (∀ lt ∈ handlersLocTypes, objGet m lt = none → quoteIdent lt ∉ twilio_location_columns m)
    ∧ (∀ c ∈ twilio_media_columns m, ∃ i, i < 10 ∧
        ((c = twilioMediaTypeCol i ∧ (objGet m (mediaTypeKey i)).isSome = true)
          ∨ (c = twilioMediaUrlCol i ∧ (objGet m (mediaUrlKey i)).isSome = true))) := by
  refine ⟨?_, ?_, ?_, ?_, ?_, ?_, ?_⟩
  · intro lt _ hnone hmem
    exact loc_absent_generic hnone (by simpa [app_location_columns] using hmem)
  · intro c hc
    rcases loc_col_mem (by simpa [app_location_columns] using hc) with ⟨lt, hlt, heq, htr⟩
    exact ⟨lt, hlt, heq, optTruthy_isSome _ htr⟩
  · intro c hc
    simp only [app_media_columns, app_media_pairs] at hc
    exact media_col_bound_generic hc
  · intro v hv
    rcases loc_val_mem (by simpa [app_location_values] using hv) with ⟨lt, _, heq, htr⟩
    rw [heq]; exact optTruthy_isSome _ htr
  · intro v hv
    simp only [app_media_values, app_media_pairs] at hv
    exact media_val_some_generic hv
  · intro lt _ hnone hmem
    exact loc_absent_generic hnone (by simpa [twilio_location_columns] using hmem)
  · intro c hc
    simp only [twilio_media_columns, twilio_media_pairs] at hc
    exact media_col_bound_generic hc

/-- C8 witness: in a message containing FromCity and MediaUrl3 only, the
absent FromZip yields no column, and the MediaUrl3 column witnesses an index
below the fixed bound of 10. -/
theorem claim_C8_witness :
    ("FromZip" ∈ appLocTypes
      ∧ objGet [("FromCity", Json.str "Brunswick"), ("MediaUrl3", Json.str "u")] "FromZip" = none
      ∧ quoteIdent "FromZip"
          ∉ app_location_columns [("FromCity", Json.str "Brunswick"), ("MediaUrl3", Json.str "u")])
    ∧ (quoteIdent (mediaUrlKey 3)
        ∈ app_media_columns [("FromCity", Json.str "Brunswick"), ("MediaUrl3", Json.str "u")]
      ∧ ∃ i, i < 10 ∧
        ((quoteIdent (mediaUrlKey 3) = quoteIdent (mediaTypeKey i)
            ∧ (objGet [("FromCity", Json.str "Brunswick"), ("MediaUrl3", Json.str "u")]
                (mediaTypeKey i)).isSome = true)
          ∨ (quoteIdent (mediaUrlKey 3) = quoteIdent (mediaUrlKey i)
            ∧ (objGet [("FromCity", Json.str "Brunswick"), ("MediaUrl3", Json.str "u")]
                (mediaUrlKey i)).isSome = true))) :=
  ⟨⟨by decide, rfl,
    (claim_C8 [("FromCity", Json.str "Brunswick"), ("MediaUrl3", Json.str "u")]).1
      "FromZip" (by decide) rfl⟩,
   ⟨by decide,
    (claim_C8 [("FromCity", Json.str "Brunswick"), ("MediaUrl3", Json.str "u")]).2.2.1
      (quoteIdent (mediaUrlKey 3)) (by decide)⟩⟩

/-- C9: given n consecutive broker connection failures followed by one
success, consume_messages performs exactly n fixed sleeps of 5 seconds, one
per failure, and then declares the topology and resumes consuming; a script
of only failures produces only the per-failure sleeps, never a crash of the
loop. -/
theorem claim_C9 (n : Nat) :
    consume_messages (List.replicate n AttemptResult.connFail ++ [AttemptResult.connected])
      = List.replicate n (Action.sleep 5) ++ consumeSuccessActions
    ∧ (consume_messages (List.replicate n AttemptResult.connFail
        ++ [AttemptResult.connected])).countP isSleep5 = n
    ∧ consume_messages (List.replicate n AttemptResult.connFail)
      = List.replicate n (Action.sleep 5) := by
  refine ⟨consume_messages_fail_then_connect n, ?_, consume_messages_replicate_fail n⟩
  rw [consume_messages_fail_then_connect n, List.countP_append, countP_sleep_replicate]
  rfl

/-- C10: every built-in handler that performs an insert builds a column list
and value list of equal length for every input message: the app.py callback
projection, handle_twilio_sms, handle_outgoing_twilio_sms,
handle_message_event, handle_image_event, and handle_callback_event. -/
theorem claim_C10 (m : Obj) :
    (app_columns m).length = (app_values m).length
    ∧ (handle_twilio_sms_columns m).length = (handle_twilio_sms_values m).length
    ∧ handle_outgoing_columns.length = (handle_outgoing_values m).length
    ∧ handle_message_event_columns.length = (handle_message_event_values m).length
    ∧ handle_image_event_columns.length = (handle_image_event_values m).length
    ∧ handle_callback_event_columns.length = (handle_callback_event_values m).length :=
  ⟨app_arity m, twilio_arity m, rfl, rfl, rfl, rfl⟩

end Wbor
